import Mathlib

/-
Verification of the PromMSD instance registry and reconciliation engine.

The definitions below are a shallow embedding of the Go sources:
  pkg/alertmanager (message/alert model), pkg/alertchecker (registry,
  reconciler loop body, delivery fan-out), pkg/alerthook (webhook intake
  and metrics), cmd/prommsd (CLI flags).

Modelling conventions:
  - Wall-clock instants and durations are `Int` nanoseconds, matching Go
    `time.Time`/`time.Duration` arithmetic; the Go zero time is `0`,
    `t.After u` is `t > u` and `t.Before u` is `t < u`.
  - Go `map[string]string` values are association lists with first-match
    lookup; the registry `map[string]*instanceDetails` is an association
    list keyed by the instance key.
  - The HTTP transports are abstracted by a `DeliveryEnv` giving, per
    destination URL, the result of `url.Parse` and the outcome of each
    kind of send; the control flow around them is translated verbatim.
  - Strings are compared and sorted byte-lexicographically as Go does;
    since Lean's built-in `String` order does not reduce in the kernel,
    an equivalent structural order on `List Char` is defined here.
-/

namespace Prommsd

/-! ### Byte-lexicographic order on strings (Go `sort.Strings` order) -/

/-- Lexicographic comparison of character lists by code point, matching
Go's byte-wise string comparison (UTF-8 byte order coincides with code
point order). -/
def lexLe : List Char → List Char → Bool
  | [], _ => true
  | _ :: _, [] => false
  | a :: as, b :: bs =>
    if a.toNat < b.toNat then true
    else if b.toNat < a.toNat then false
    else lexLe as bs

theorem lexLe_total : ∀ (a b : List Char), lexLe a b = true ∨ lexLe b a = true
  | [], _ => Or.inl rfl
  | _ :: _, [] => Or.inr rfl
  | a :: as, b :: bs => by
    rcases Nat.lt_trichotomy a.toNat b.toNat with h | h | h
    · left
      simp [lexLe, h]
    · have h2 : ¬ a.toNat < b.toNat := by omega
      have h3 : ¬ b.toNat < a.toNat := by omega
      rcases lexLe_total as bs with ih | ih
      · left
        simp [lexLe, h2, h3, ih]
      · right
        simp [lexLe, h2, h3, ih]
    · right
      simp [lexLe, h]

theorem lexLe_trans :
    ∀ (a b c : List Char), lexLe a b = true → lexLe b c = true → lexLe a c = true
  | [], _, _, _, _ => rfl
  | _ :: _, [], _, h1, _ => by simp [lexLe] at h1
  | _ :: _, _ :: _, [], _, h2 => by simp [lexLe] at h2
  | a :: as, b :: bs, c :: cs, h1, h2 => by
    simp only [lexLe] at h1 h2 ⊢
    by_cases hab : a.toNat < b.toNat
    · by_cases hbc : b.toNat < c.toNat
      · simp [show a.toNat < c.toNat from by omega]
      · by_cases hcb : c.toNat < b.toNat
        · simp [hbc, hcb] at h2
        · have : a.toNat < c.toNat := by omega
          simp [this]
    · by_cases hba : b.toNat < a.toNat
      · simp [hab, hba] at h1
      · have hEq : a.toNat = b.toNat := by omega
        by_cases hbc : b.toNat < c.toNat
        · simp [show a.toNat < c.toNat from by omega]
        · by_cases hcb : c.toNat < b.toNat
          · simp [hbc, hcb] at h2
          · have h2' : lexLe bs cs = true := by simpa [hbc, hcb] using h2
            have h1' : lexLe as bs = true := by simpa [hab, hba] using h1
            have hac : ¬ a.toNat < c.toNat := by omega
            have hca : ¬ c.toNat < a.toNat := by omega
            simp [hac, hca, lexLe_trans as bs cs h1' h2']

theorem lexLe_antisymm :
    ∀ (a b : List Char), lexLe a b = true → lexLe b a = true → a = b
  | [], [], _, _ => rfl
  | [], _ :: _, _, h2 => by simp [lexLe] at h2
  | _ :: _, [], h1, _ => by simp [lexLe] at h1
  | a :: as, b :: bs, h1, h2 => by
    simp only [lexLe] at h1 h2
    by_cases hab : a.toNat < b.toNat
    · simp [hab, Nat.lt_asymm hab] at h2
    · by_cases hba : b.toNat < a.toNat
      · simp [hab, hba] at h1
      · have h1' : lexLe as bs = true := by simpa [hab, hba] using h1
        have h2' : lexLe bs as = true := by simpa [hab, hba] using h2
        have hn : a.toNat = b.toNat := by omega
        have hc : a = b := Char.ext (UInt32.ext hn)
        rw [hc, lexLe_antisymm as bs h1' h2']

/-- Byte-lexicographic `≤` on `String`, as used by Go's `sort.Strings`. -/
def strLe (a b : String) : Prop := lexLe a.data b.data = true

instance : DecidableRel strLe := fun a b => by unfold strLe; infer_instance

instance : IsTotal String strLe := ⟨fun a b => lexLe_total a.data b.data⟩

instance : IsTrans String strLe :=
  ⟨fun a b c h1 h2 => lexLe_trans a.data b.data c.data h1 h2⟩

instance : IsAntisymm String strLe :=
  ⟨fun a b h1 h2 => by
    cases a; cases b
    exact congrArg String.mk (lexLe_antisymm _ _ h1 h2)⟩

/-- Sorting a list of strings into byte-lexicographic order, the effect of
Go's `sort.Strings`. -/
def sortStrings (l : List String) : List String := List.insertionSort strLe l

/-! ### String helpers used by the Go sources -/

/-- Whitespace as recognised by Go's `strings.TrimSpace` on ASCII input
(space, tab, newline, vertical tab, form feed, carriage return). Unicode
space characters beyond ASCII are not modelled; no annotation in the
claims contains them. -/
def isSpaceGo (c : Char) : Bool :=
  c = ' ' || c = '\t' || c = '\n' || c = Char.ofNat 11 || c = Char.ofNat 12 || c = '\x0d'

/-- Go `strings.TrimSpace` on a character list. -/
def trimSpace (s : List Char) : List Char :=
  ((s.dropWhile isSpaceGo).reverse.dropWhile isSpaceGo).reverse

/-- Go `strings.Split` with a one-character separator: splits on every
occurrence, keeping empty fields (so consecutive separators yield empty
strings, as in Go). -/
def splitChar (sep : Char) : List Char → List (List Char)
  | [] => [[]]
  | c :: rest =>
    match splitChar sep rest with
    | [] => [[]]
    | g :: gs => if c = sep then [] :: g :: gs else (c :: g) :: gs

/-- Go `strings.SplitN (s, sep, 2)` for a one-character separator: `none`
when the separator is absent, otherwise the parts before and after its
first occurrence. -/
def splitFirst (sep : Char) : List Char → Option (List Char × List Char)
  | [] => none
  | c :: rest =>
    if c = sep then some ([], rest)
    else
      match splitFirst sep rest with
      | none => none
      | some (before, after) => some (c :: before, after)

/-- Go `strings.Join` / `String.intercalate`, written structurally so the
kernel can evaluate it. -/
def intercalateSep (sep : String) : List String → String
  | [] => ""
  | [s] => s
  | s :: rest => s ++ sep ++ intercalateSep sep rest

/-- Hexadecimal digit (lower case), as used by Go's quoted escapes. -/
def hexDigit (n : Nat) : Char :=
  if n < 10 then Char.ofNat (48 + n) else Char.ofNat (87 + n)

/-- Escapes one character the way Go's `%q` (`strconv.Quote`) does:
named escapes for `"` `\` and the ASCII control characters that have
them, `\xNN` for other control bytes, everything else verbatim. (Go also
escapes non-printable characters above ASCII using Unicode tables; those
are passed through verbatim here, and no claim exercises them.) -/
def goQuoteChar (c : Char) : List Char :=
  if c = '"' then ['\\', '"']
  else if c = '\\' then ['\\', '\\']
  else if c = Char.ofNat 7 then ['\\', 'a']
  else if c = Char.ofNat 8 then ['\\', 'b']
  else if c = Char.ofNat 12 then ['\\', 'f']
  else if c = '\n' then ['\\', 'n']
  else if c = '\x0d' then ['\\', 'r']
  else if c = '\t' then ['\\', 't']
  else if c = Char.ofNat 11 then ['\\', 'v']
  else if c.toNat < 32 || c.toNat = 127 then
    ['\\', 'x', hexDigit (c.toNat / 16 % 16), hexDigit (c.toNat % 16)]
  else [c]

/-- Go `fmt.Sprintf "%q"` of a string: the double-quoted, escaped form. -/
def goQuote (s : String) : String :=
  String.mk ('"' :: s.data.foldr (fun c acc => goQuoteChar c ++ acc) ['"'])

/-! ### Data model (pkg/alertmanager: `Message`, `Alert`) -/

/-- First-match lookup in an association list, modelling Go map access
`m[key]` on `map[string]string`. -/
def lookupMap : List (String × String) → String → Option String
  | [], _ => none
  | (k, v) :: rest, key => if k = key then some v else lookupMap rest key

/-- The parsed Alertmanager webhook batch (Go `alertmanager.Message`).
The `Alerts` field of the Go struct is omitted: child alerts point back
at their parent batch, and the checker only reads the parent's label,
annotation, receiver and external URL data, so the cycle is broken here. -/
structure Message where
  version : String
  groupKey : String
  status : String
  receiver : String
  groupLabels : List (String × String)
  commonLabels : List (String × String)
  commonAnnots : List (String × String)
  externalURL : String
deriving DecidableEq

/-- One child alert of a batch (Go `alertmanager.Alert`). `annots` is the
Go `Annotations` field. -/
structure Alert where
  parent : Option Message
  status : String
  labels : List (String × String)
  annots : List (String × String)
  startsAt : Int
  endsAt : Int
  generatorURL : String
deriving DecidableEq

/-- Go `Alert.GetLabel`: the alert's own labels, with fallback to the
parent's common labels and then the parent's group labels. -/
def Alert.GetLabel (a : Alert) (key : String) : Option String :=
  match lookupMap a.labels key with
  | some v => some v
  | none =>
    match a.parent with
    | none => none
    | some p =>
      match lookupMap p.commonLabels key with
      | some v => some v
      | none => lookupMap p.groupLabels key

/-- Go `Alert.GetLabelDefault`. -/
def Alert.GetLabelDefault (a : Alert) (key d : String) : String :=
  match a.GetLabel key with
  | some v => v
  | none => d

/-- Go `Alert.GetAnnotation`: the alert's own annotations with fallback
to the parent's common annotations only (group annotations do not exist). -/
def Alert.GetAnnot (a : Alert) (key : String) : Option String :=
  match lookupMap a.annots key with
  | some v => some v
  | none =>
    match a.parent with
    | none => none
    | some p => lookupMap p.commonAnnots key

/-- Go `Alert.GetAnnotationDefault`. -/
def Alert.GetAnnotDefault (a : Alert) (key d : String) : String :=
  match a.GetAnnot key with
  | some v => v
  | none => d

/-! ### Checker constants (pkg/alertchecker) -/

/-- One Go `time.Second` in nanoseconds. -/
def second : Int := 1000000000

/-- One Go `time.Minute` in nanoseconds. -/
def minute : Int := 60 * second

/-- One Go `time.Hour` in nanoseconds. -/
def hour : Int := 60 * minute

/-- Go `defaultActivation = 10 * time.Minute`. -/
def defaultActivation : Int := 10 * minute

/-- Go `sendInterval = 60 * time.Second`. -/
def sendInterval : Int := 60 * second

/-- Go `slackSendInterval = 20 * time.Minute`. -/
def slackSendInterval : Int := 20 * minute

/-- Go `resolveRepeat = 15 * time.Minute`. -/
def resolveRepeat : Int := 15 * minute

/-- Go `expireTime = 2 * time.Hour`. -/
def expireTime : Int := 2 * hour

/-- Go `defaultIdentifiers = "job namespace cluster"`. -/
def defaultIdentifiers : String := "job namespace cluster"

/-! ### The tracked instance and the registry -/

/-- Go `instanceDetails`: the per-instance state kept in the registry. -/
structure InstanceDetails where
  ActivateAt : Int
  LastSent : Int
  ActivatedAt : Int
  ResolvedAt : Int
  AlertName : String
  Receiver : String
  AlertManagers : List String
  OverrideLabels : List String
  LastAlert : Alert
  LastError : String
deriving DecidableEq

/-- The registry `map[string]*instanceDetails`, as an association list
keyed by instance key (Go maps have unique keys; theorems that need
uniqueness take a `Nodup` hypothesis on the key list). -/
abbrev Registry := List (String × InstanceDetails)

/-- Go map read `ac.monitored[key]`. -/
def findInstance : Registry → String → Option InstanceDetails
  | [], _ => none
  | (k, v) :: rest, key => if k = key then some v else findInstance rest key

/-- Go map write `ac.monitored[key] = inst`: replaces the entry for the
key if present, otherwise adds one. -/
def setInstance : Registry → String → InstanceDetails → Registry
  | [], key, inst => [(key, inst)]
  | (k, v) :: rest, key, inst =>
    if k = key then (key, inst) :: rest else (k, v) :: setInstance rest key inst

/-- The keys of a registry (or of a to-alert list). -/
def keysOf (r : List (String × InstanceDetails)) : List String := r.map Prod.fst

/-! ### Ingest (pkg/alertchecker `splitAnnotation`, `HandleAlert`,
`updateInstance`) -/

/-- Go `splitAnnotation`: split the annotation into lines, trim each
line, drop empty lines and lines starting with a comment character, then
split each remaining line on single spaces (keeping empty items produced
by consecutive spaces, exactly as `strings.Split` does). -/
def splitAnnot (s : String) : List String :=
  (go (splitChar '\n' s.data)).map String.mk
where
  go : List (List Char) → List (List Char)
    | [] => []
    | line :: rest =>
      match trimSpace line with
      | [] => go rest
      | c :: cs => if c = '#' then go rest else splitChar ' ' (c :: cs) ++ go rest

/-- The identifier tokens of a heartbeat: annotation `msd_identifiers`,
with default `job namespace cluster` (from `HandleAlert`). -/
def identifierList (a : Alert) : List String :=
  splitAnnot (a.GetAnnotDefault "msd_identifiers" defaultIdentifiers)

/-- The instance key as `HandleAlert` builds it: each identifier becomes
`id="value"` (Go `id+"="+fmt.Sprintf("%q", ...)`, empty value when the
label is absent), then the formatted strings are sorted with
`sort.Strings` and joined with single spaces. -/
def buildKey (a : Alert) : String :=
  intercalateSep " "
    (sortStrings ((identifierList a).map
      (fun id => id ++ "=" ++ goQuote (a.GetLabelDefault id ""))))

/-- The parent's external URL (Go `alert.Parent.ExternalURL`; the intake
always sets `Parent`, a missing parent would be a nil dereference). -/
def parentExternalURL (a : Alert) : String :=
  match a.parent with
  | some p => p.externalURL
  | none => ""

/-- The parent's receiver name (Go `alert.Parent.Receiver`). -/
def parentReceiver (a : Alert) : String :=
  match a.parent with
  | some p => p.receiver
  | none => ""

/-- Go `HandleAlert`: drops `resolved` heartbeats, otherwise derives the
key and configuration and produces the proposed instance record that is
sent over `handleChan` to the checker goroutine. `parseDuration` stands
for Go's `time.ParseDuration` (an external library routine); `none`
models a parse error, in which case the Go code logs a warning and falls
back to `defaultActivation`. -/
def HandleAlert (now : Int) (parseDuration : String → Option Int) (alert : Alert) :
    Option (String × InstanceDetails) :=
  if alert.status = "resolved" then none
  else
    let key := buildKey alert
    let alertName := alert.GetAnnotDefault "msd_alertname" "NoAlertConnectivity"
    let overrideLabels := alert.GetAnnotDefault "msd_override_labels" "severity=critical"
    let alertManagers := alert.GetAnnotDefault "msd_alertmanagers" (parentExternalURL alert)
    let activationDuration :=
      match parseDuration (alert.GetAnnotDefault "msd_activation" "10m") with
      | some d => d
      | none => defaultActivation
    some (key,
      { ActivateAt := now + activationDuration
        AlertManagers := splitAnnot alertManagers
        AlertName := alertName
        Receiver := parentReceiver alert
        OverrideLabels := splitAnnot overrideLabels
        LastAlert := alert
        ActivatedAt := 0
        LastSent := 0
        ResolvedAt := 0
        LastError := "" })

/-- Go `updateInstance`: store the proposed record under its key; when
the key already existed, carry `ActivatedAt`, `LastSent` and `LastError`
over from the prior record, and set `ResolvedAt` to `now` when the prior
record's `LastSent` is strictly after its `ActivateAt` (a firing
notification had gone out), else carry the prior `ResolvedAt`. -/
def updateInstance (now : Int) (monitored : Registry) (key : String)
    (inst : InstanceDetails) : Registry :=
  match findInstance monitored key with
  | none => setInstance monitored key inst
  | some oldInstance =>
    let inst1 :=
      if oldInstance.LastSent > oldInstance.ActivateAt then
        { inst with ResolvedAt := now }
      else
        { inst with ResolvedAt := oldInstance.ResolvedAt }
    let inst2 :=
      { inst1 with
          ActivatedAt := oldInstance.ActivatedAt
          LastSent := oldInstance.LastSent
          LastError := oldInstance.LastError }
    setInstance monitored key inst2

/-! ### Tick (pkg/alertchecker `checkMonitored`) -/

/-- The per-entry result of one loop iteration of `checkMonitored`. -/
structure TickEntryResult where
  inst : InstanceDetails
  due : Bool
  expired : Bool
deriving DecidableEq

/-- One iteration of the `checkMonitored` range loop for one entry at
time `now`: decide activity (`now.After ActivateAt`) and the resolve
window (`now.Before (ResolvedAt + resolveRepeat)`); inside that guard,
decide whether to alert (`now.After (LastSent + sendInterval)`), stamping
`ActivatedAt := now` on the first send of a fresh firing episode, and
whether the entry expires (`now.After (ActivateAt + expireTime)`). -/
def checkEntry (now : Int) (inst : InstanceDetails) : TickEntryResult :=
  if now > inst.ActivateAt ∨ now < inst.ResolvedAt + resolveRepeat then
    { inst :=
        if now > inst.LastSent + sendInterval then
          if now > inst.ActivateAt ∧ inst.ActivateAt > inst.ActivatedAt then
            { inst with ActivatedAt := now }
          else inst
        else inst
      due := now > inst.LastSent + sendInterval
      expired := now > inst.ActivateAt + expireTime }
  else { inst := inst, due := false, expired := false }

/-- The locked phase of Go `checkMonitored`: walk the registry, build the
`toAlert` list of entries due for a delivery, and delete expired entries.
Returns the registry after expiry together with `toAlert`. The delivery
decision for an entry is taken before its expiry check within the same
iteration, so an entry can appear in `toAlert` and still be deleted. -/
def checkMonitored (now : Int) : Registry → Registry × List (String × InstanceDetails)
  | [] => ([], [])
  | (k, i) :: rest =>
    let r := checkEntry now i
    let res := checkMonitored now rest
    ((if r.expired then res.1 else (k, r.inst) :: res.1),
     (if r.due then (k, r.inst) :: res.2 else res.2))

/-- The keys enqueued for delivery by the tick at `now` (the `toAlert`
list of `checkMonitored`). -/
def dueKeys (now : Int) (monitored : Registry) : List String :=
  keysOf (checkMonitored now monitored).2

/-! ### Delivery fan-out (pkg/alertchecker `sendAlerts`, the write-back
in `alert`) -/

/-- The result of Go `url.Parse`: the scheme and the remainder of the
URL. -/
structure ParsedURL where
  scheme : String
  rest : String
deriving DecidableEq

/-- Outcome of one transport send. -/
inductive SendOutcome
  | ok
  | fail (msg : String)
deriving DecidableEq

/-- The environment of a delivery fan-out: per destination URL, the
result of `url.Parse` (`none` models a parse error) and the outcome of an
Alertmanager, webhook or Slack send to the parsed URL. The wire bodies do
not influence the checker's control flow and are not modelled. -/
structure DeliveryEnv where
  parseURL : String → Option ParsedURL
  amResult : ParsedURL → SendOutcome
  webhookResult : ParsedURL → SendOutcome
  slackResult : ParsedURL → SendOutcome

/-- The scheme-prefix dispatch of `sendAlerts`: a scheme `kind+rest`
selects transport `kind` and rewrites the scheme to `rest`
(Go `strings.SplitN(u.Scheme, "+", 2)`); without a `+` the kind defaults
to `am`. -/
def splitDeliverType (u : ParsedURL) : String × ParsedURL :=
  match splitFirst '+' u.scheme.data with
  | none => ("am", u)
  | some (before, after) => (String.mk before, { u with scheme := String.mk after })

/-- The body of the destination loop in Go `sendAlerts` for one
destination URL, threading the `lastErr` accumulator: an unparseable URL
is logged and skipped; `am` and `webhook` sends record a failure in
`lastErr`; a `slack` send is skipped entirely unless
`now.After (lastSent + slackSendInterval)`; an unknown kind records an
error without attempting delivery. Successes leave `lastErr` unchanged. -/
def destUpdate (env : DeliveryEnv) (now lastSent : Int) (lastErr : Option String)
    (alertURL : String) : Option String :=
  match env.parseURL alertURL with
  | none => lastErr
  | some u0 =>
    let p := splitDeliverType u0
    if p.1 = "am" then
      match env.amResult p.2 with
      | .ok => lastErr
      | .fail e => some e
    else if p.1 = "webhook" then
      match env.webhookResult p.2 with
      | .ok => lastErr
      | .fail e => some e
    else if p.1 = "slack" then
      if ¬ now > lastSent + slackSendInterval then lastErr
      else
        match env.slackResult p.2 with
        | .ok => lastErr
        | .fail e => some e
    else some ("Unknown alert delivery type " ++ p.1 ++ " (in " ++ goQuote alertURL ++ ")")

/-- Go `sendAlerts`: fold the destination loop over the instance's
destination list, returning the last recorded error (or `none` when no
destination recorded one). -/
def sendAlerts (env : DeliveryEnv) (now : Int) (alertmanagers : List String)
    (lastSent : Int) : Option String :=
  alertmanagers.foldl (destUpdate env now lastSent) none

/-- The write-back at the end of Go `alert`: a non-nil fan-out error is
recorded on the entry's `LastError`; otherwise `LastSent` is advanced to
the tick time. -/
def alertWriteback (now : Int) (inst : InstanceDetails) (result : Option String) :
    InstanceDetails :=
  match result with
  | some e => { inst with LastError := e }
  | none => { inst with LastSent := now }

/-- One delivery worker (Go `alert`): fan out to the entry's destination
list and write back. The construction of the outbound alert body – which
does not feed back into the registry state – is not modelled. -/
def runAlert (env : DeliveryEnv) (now : Int) (inst : InstanceDetails) : InstanceDetails :=
  alertWriteback now inst (sendAlerts env now inst.AlertManagers inst.LastSent)

/-- A whole tick: the locked `checkMonitored` phase followed by one
delivery worker per `toAlert` entry, each writing back only to its own
entry (identified by key; Go identifies it by pointer). Write-backs to
entries that expired in the same tick are discarded with the entry, as in
Go. -/
def tick (env : DeliveryEnv) (now : Int) (monitored : Registry) : Registry :=
  let res := checkMonitored now monitored
  res.1.map (fun e =>
    (e.1, if e.1 ∈ keysOf res.2 then runAlert env now e.2 else e.2))

/-! ### Metrics (pkg/alerthook, pkg/alertchecker gauge) -/

/-- Prometheus `BuildFQName`: join namespace, subsystem and name with
underscores, skipping empty components (empty name gives the empty
string). The Go metric options here always fill all three. -/
def buildFQName (ns sub name : String) : String :=
  if name = "" then ""
  else if ns ≠ "" ∧ sub ≠ "" then ns ++ "_" ++ sub ++ "_" ++ name
  else if ns ≠ "" then ns ++ "_" ++ name
  else if sub ≠ "" then sub ++ "_" ++ name
  else name

/-- The registry cardinality gauge (pkg/alertchecker `instanceMetric`):
namespace `prommsd`, subsystem `alertchecker`, name `monitored_instances`. -/
def instanceMetricName : String := buildFQName "prommsd" "alertchecker" "monitored_instances"

/-- The intake counter (pkg/alerthook `receivedMetric`). -/
def receivedMetricName : String := buildFQName "prommsd" "alerthook" "received_total"

/-- The intake error counter vector (pkg/alerthook `errorsMetric`). -/
def errorsMetricName : String := buildFQName "prommsd" "alerthook" "errors_total"

/-- The `type` label values pre-initialised to zero by the package's
`init` function. -/
def initialErrorTypes : List String := ["wrong_method", "decode", "handler"]

/-- A metric event recorded while serving one intake request: the
received counter, or the error counter with its `type` label value. -/
inductive MetricEvent
  | received
  | errorOfType (t : String)
deriving DecidableEq

/-- The observable input of one intake request for `ServeHTTP`: the HTTP
method, and (when the method is POST) whether the JSON body decoded,
together with the per-alert results of `HandleAlert` (`none` = success).
The decoded body is irrelevant for non-POST requests. -/
structure HookRequest where
  method : String
  decoded : Option (List (Option String))
deriving DecidableEq

/-- Go `AlertHook.ServeHTTP`, reduced to its metric increments and HTTP
status code: HEAD/OPTIONS return immediately; otherwise the received
counter fires; a non-POST is a `wrong_method` error (400); a body that
fails to decode is a `decode` error (400); if any contained alert's
handler returned an error, the error counter fires with type `handle`
and the response is 500; else 200. -/
def serveHTTP (req : HookRequest) : List MetricEvent × Nat :=
  if req.method = "HEAD" ∨ req.method = "OPTIONS" then ([], 200)
  else
    let events := [MetricEvent.received]
    if req.method ≠ "POST" then (events ++ [MetricEvent.errorOfType "wrong_method"], 400)
    else
      match req.decoded with
      | none => (events ++ [MetricEvent.errorOfType "decode"], 400)
      | some results =>
        if results.any Option.isSome then
          (events ++ [MetricEvent.errorOfType "handle"], 500)
        else (events, 200)

/-! ### CLI surface (cmd/prommsd/main.go) -/

/-- The default of the `--listen` flag. -/
def defaultListen : String := ":9111"

/-- The default of the `--external-url` flag. -/
def defaultExternalURLFlag : String := ""

/-- The derivation of the external URL in `main`: an empty
`--external-url` is derived from the listen address (`http://localhost`
prepended when the address starts with a colon, else `http://`).
Go indexes byte 0 of the listen address and would panic on an empty one;
`String.front` models the non-empty case. -/
def computeExternalURL (flagExternalURL flagListen : String) : String :=
  if flagExternalURL.length = 0 then
    if flagListen.front = ':' then "http://localhost" ++ flagListen
    else "http://" ++ flagListen
  else flagExternalURL

/-- What `main` does after parsing flags. -/
inductive MainAction
  | versionExit
  | serve (listenAddr externalURL : String)
deriving DecidableEq

/-- Go `main`: `--version` prints build info and exits before anything
else; otherwise the server is started on the listen address with the
derived external URL. -/
def mainRun (flagListen flagExternalURL : String) (flagVersion : Bool) : MainAction :=
  if flagVersion then MainAction.versionExit
  else MainAction.serve flagListen (computeExternalURL flagExternalURL flagListen)

/-! ### Concrete data for witnesses -/

/-- A realistic wall-clock epoch for concrete runs, so that the Go zero
time's resolve-repeat window (`now < 0 + resolveRepeat`) is in the far
past, as it is for real clocks. -/
def epoch : Int := 1700000000 * second

/-- A sample heartbeat, mirroring the repository's own test alerts. -/
def sampleAlert : Alert :=
  { parent := some
      { version := "4", groupKey := "", status := "firing", receiver := "prommsd"
        groupLabels := [], commonLabels := [], commonAnnots := []
        externalURL := "http://am0" }
    status := "firing"
    labels := [("job", "tester")]
    annots := [("msd_alertmanagers", "alerttest://am1")]
    startsAt := 0, endsAt := 0, generatorURL := "" }

/-- A sample registry entry: registered at `epoch` with the default 10
minute activation window, never yet sent. -/
def sampleInstance : InstanceDetails :=
  { ActivateAt := epoch + 600 * second, LastSent := 0, ActivatedAt := 0, ResolvedAt := 0
    AlertName := "NoAlertConnectivity", Receiver := "prommsd"
    AlertManagers := ["alerttest://am1"], OverrideLabels := ["severity=critical"]
    LastAlert := sampleAlert, LastError := "" }

/-- A delivery environment where every URL parses and every send
succeeds. -/
def envAllOK : DeliveryEnv :=
  { parseURL := fun s => some { scheme := "http", rest := s }
    amResult := fun _ => SendOutcome.ok
    webhookResult := fun _ => SendOutcome.ok
    slackResult := fun _ => SendOutcome.ok }

/-- A delivery environment where every URL parses and every Alertmanager
send fails. -/
def envAllFail : DeliveryEnv :=
  { parseURL := fun s => some { scheme := "http", rest := s }
    amResult := fun _ => SendOutcome.fail "boom"
    webhookResult := fun _ => SendOutcome.ok
    slackResult := fun _ => SendOutcome.ok }

/-- A delivery environment where `http://good` succeeds and every other
Alertmanager destination fails. -/
def envPartial : DeliveryEnv :=
  { parseURL := fun s => some { scheme := "http", rest := s }
    amResult := fun u => if u.rest = "http://good" then SendOutcome.ok else SendOutcome.fail "boom"
    webhookResult := fun _ => SendOutcome.ok
    slackResult := fun _ => SendOutcome.ok }

/-- A delivery environment where no URL parses. -/
def envNoParse : DeliveryEnv :=
  { parseURL := fun _ => none
    amResult := fun _ => SendOutcome.ok
    webhookResult := fun _ => SendOutcome.ok
    slackResult := fun _ => SendOutcome.ok }


/-- An alert whose identifier names overlap as prefixes (`a` and `a0`),
where sorting names and sorting formatted strings disagree. -/
def overlapNamesAlert : Alert :=
  { parent := none, status := "firing"
    labels := [("a", "x"), ("a0", "y")]
    annots := [("msd_identifiers", "a a0")]
    startsAt := 0, endsAt := 0, generatorURL := "" }

/-- A heartbeat with identifiers `job severity`. -/
def permAlertA : Alert :=
  { parent := none, status := "firing"
    labels := [("job", "x"), ("severity", "s")]
    annots := [("msd_identifiers", "job severity")]
    startsAt := 0, endsAt := 0, generatorURL := "" }

/-- The same heartbeat with the identifier annotation permuted to
`severity job`. -/
def permAlertB : Alert :=
  { parent := none, status := "firing"
    labels := [("severity", "s"), ("job", "x")]
    annots := [("msd_identifiers", "severity job")]
    startsAt := 0, endsAt := 0, generatorURL := "" }

/-! ### The instance key as the specification describes it -/

/-- Modelled from the spec: the key construction as the specification
words it – "the labels are sorted, each emitted as `name="value"` using a
double-quoted value (empty string when absent), joined by single spaces" –
i.e. the identifier names are sorted first and then formatted. Written
for comparison with `buildKey`, which is translated from `HandleAlert`
and sorts the formatted `name="value"` strings instead. -/
def specDescribedKey (a : Alert) : String :=
  intercalateSep " "
    ((sortStrings (identifierList a)).map
      (fun id => id ++ "=" ++ goQuote (a.GetLabelDefault id "")))

/-! ### Registry lemmas -/

theorem findInstance_setInstance_self :
    ∀ (R : Registry) (key : String) (inst : InstanceDetails),
      findInstance (setInstance R key inst) key = some inst
  | [], key, inst => by simp [setInstance, findInstance]
  | (k, v) :: rest, key, inst => by
    by_cases hk : k = key
    · simp [setInstance, hk, findInstance]
    · simp [setInstance, hk, findInstance, findInstance_setInstance_self rest key inst]

theorem findInstance_eq_none_of_not_mem :
    ∀ (R : Registry) (key : String), key ∉ keysOf R → findInstance R key = none
  | [], _, _ => rfl
  | (k, v) :: rest, key, hmem => by
    have hk : k ≠ key := by
      intro h
      exact hmem (by simp [keysOf, h])
    have hrest : key ∉ keysOf rest := fun h => hmem (by simp [keysOf] at h ⊢; exact Or.inr h)
    simp [findInstance, hk, findInstance_eq_none_of_not_mem rest key hrest]

theorem mem_keysOf_of_findInstance_some :
    ∀ (R : Registry) (key : String) (e : InstanceDetails),
      findInstance R key = some e → key ∈ keysOf R
  | [], _, _, h => by simp [findInstance] at h
  | (k, v) :: rest, key, e, h => by
    by_cases hk : k = key
    · simp [keysOf, hk]
    · have h' : findInstance rest key = some e := by simpa [findInstance, hk] using h
      have := mem_keysOf_of_findInstance_some rest key e h'
      simp [keysOf] at this ⊢
      exact Or.inr this

theorem findInstance_isSome_of_mem :
    ∀ (R : Registry) (key : String), key ∈ keysOf R →
      ∃ i, findInstance R key = some i
  | [], _, h => by simp [keysOf] at h
  | (k, v) :: rest, key, h => by
    by_cases hk : k = key
    · exact ⟨v, by simp [findInstance, hk]⟩
    · have h' : key ∈ keysOf rest := by
        simp only [keysOf, List.map, List.mem_cons] at h
        rcases h with h | h
        · exact absurd h.symm hk
        · exact h
      obtain ⟨i, hi⟩ := findInstance_isSome_of_mem rest key h'
      exact ⟨i, by simp [findInstance, hk, hi]⟩

/-! ### Lemmas about the tick -/

theorem keysOf_checkMonitored_fst_sublist (now : Int) :
    ∀ R : Registry, (keysOf (checkMonitored now R).1).Sublist (keysOf R)
  | [] => by simp [checkMonitored, keysOf]
  | (k, i) :: rest => by
    have ih := keysOf_checkMonitored_fst_sublist now rest
    simp only [checkMonitored, keysOf, List.map] at ih ⊢
    by_cases hexp : (checkEntry now i).expired
    · simpa [hexp] using ih.cons k
    · simpa [hexp] using ih.cons₂ k

theorem keysOf_checkMonitored_snd_sublist (now : Int) :
    ∀ R : Registry, (keysOf (checkMonitored now R).2).Sublist (keysOf R)
  | [] => by simp [checkMonitored, keysOf]
  | (k, i) :: rest => by
    have ih := keysOf_checkMonitored_snd_sublist now rest
    simp only [checkMonitored, keysOf, List.map] at ih ⊢
    by_cases hdue : (checkEntry now i).due
    · simpa [hdue] using ih.cons₂ k
    · simpa [hdue] using ih.cons k

theorem findInstance_checkMonitored_none (now : Int) (R : Registry) (key : String)
    (h : key ∉ keysOf R) : findInstance (checkMonitored now R).1 key = none :=
  findInstance_eq_none_of_not_mem _ _
    (fun hmem => h ((keysOf_checkMonitored_fst_sublist now R).subset hmem))

theorem findInstance_checkMonitored_fst (now : Int) :
    ∀ (R : Registry) (key : String) (e : InstanceDetails),
      (keysOf R).Nodup → findInstance R key = some e →
      findInstance (checkMonitored now R).1 key =
        (if (checkEntry now e).expired then none else some (checkEntry now e).inst)
  | [], _, _, _, hf => by simp [findInstance] at hf
  | (k, i) :: rest, key, e, hN, hf => by
    have hN' : (keysOf rest).Nodup := (List.nodup_cons.mp (by simpa [keysOf] using hN)).2
    by_cases hk : k = key
    · subst hk
      rw [findInstance, if_pos rfl] at hf
      injection hf with hf
      subst hf
      have hnotin : k ∉ keysOf rest :=
        (List.nodup_cons.mp (by simpa [keysOf] using hN)).1
      simp only [checkMonitored]
      by_cases hexp : (checkEntry now i).expired
      · simp [hexp, findInstance_checkMonitored_none now rest k hnotin]
      · simp [hexp, findInstance]
    · have hf' : findInstance rest key = some e := by simpa [findInstance, hk] using hf
      have ih := findInstance_checkMonitored_fst now rest key e hN' hf'
      simp only [checkMonitored]
      by_cases hexp : (checkEntry now i).expired
      · simp [hexp, ih]
      · simp [hexp, findInstance, hk, ih]

theorem mem_dueKeys_iff (now : Int) :
    ∀ (R : Registry) (key : String) (e : InstanceDetails),
      (keysOf R).Nodup → findInstance R key = some e →
      (key ∈ dueKeys now R ↔ (checkEntry now e).due = true)
  | [], _, _, _, hf => by simp [findInstance] at hf
  | (k, i) :: rest, key, e, hN, hf => by
    have hN' : (keysOf rest).Nodup := (List.nodup_cons.mp (by simpa [keysOf] using hN)).2
    by_cases hk : k = key
    · subst hk
      rw [findInstance, if_pos rfl] at hf
      injection hf with hf
      subst hf
      have hnotin : k ∉ keysOf rest :=
        (List.nodup_cons.mp (by simpa [keysOf] using hN)).1
      have hnotdue : k ∉ dueKeys now rest :=
        fun hmem => hnotin ((keysOf_checkMonitored_snd_sublist now rest).subset hmem)
      simp only [dueKeys, checkMonitored, keysOf] at hnotdue ⊢
      by_cases hdue : (checkEntry now i).due
      · simp [hdue]
      · rw [if_neg hdue]
        exact iff_of_false hnotdue hdue
    · have hf' : findInstance rest key = some e := by simpa [findInstance, hk] using hf
      have ih := mem_dueKeys_iff now rest key e hN' hf'
      simp only [dueKeys, checkMonitored, keysOf] at ih ⊢
      by_cases hdue : (checkEntry now i).due
      · simp [hdue, hk, ih, Ne.symm hk]
      · simp [hdue, ih]

theorem findInstance_mapSnd (g : String → InstanceDetails → InstanceDetails) :
    ∀ (R : Registry) (key : String),
      findInstance (R.map (fun e => (e.1, g e.1 e.2))) key =
        (findInstance R key).map (g key)
  | [], _ => rfl
  | (k, v) :: rest, key => by
    by_cases hk : k = key
    · subst hk
      simp [findInstance]
    · simp [findInstance, hk, findInstance_mapSnd g rest key]

theorem keysOf_tick (env : DeliveryEnv) (now : Int) (R : Registry) :
    keysOf (tick env now R) = keysOf (checkMonitored now R).1 := by
  simp [tick, keysOf, List.map_map, Function.comp]

theorem nodup_keys_tick (env : DeliveryEnv) (now : Int) (R : Registry)
    (hN : (keysOf R).Nodup) : (keysOf (tick env now R)).Nodup := by
  rw [keysOf_tick]
  exact (keysOf_checkMonitored_fst_sublist now R).nodup hN

theorem findInstance_tick (env : DeliveryEnv) (now : Int) (R : Registry) (key : String)
    (e : InstanceDetails) (hN : (keysOf R).Nodup) (hf : findInstance R key = some e) :
    findInstance (tick env now R) key =
      (if (checkEntry now e).expired then none
       else some (if (checkEntry now e).due then runAlert env now (checkEntry now e).inst
                  else (checkEntry now e).inst)) := by
  have hmap := findInstance_mapSnd
    (fun k i => if k ∈ keysOf (checkMonitored now R).2 then runAlert env now i else i)
    (checkMonitored now R).1 key
  have hcm := findInstance_checkMonitored_fst now R key e hN hf
  have hdk := mem_dueKeys_iff now R key e hN hf
  show findInstance ((checkMonitored now R).1.map _) key = _
  rw [hmap, hcm]
  by_cases hexp : (checkEntry now e).expired
  · simp [hexp]
  · by_cases hdue : (checkEntry now e).due
    · have hmem : key ∈ keysOf (checkMonitored now R).2 := by
        simpa [dueKeys] using hdk.mpr hdue
      simp [hexp, hdue, hmem]
    · have hmem : key ∉ keysOf (checkMonitored now R).2 := by
        intro hmem
        exact hdue (hdk.mp (by simpa [dueKeys] using hmem))
      simp [hexp, hdue, hmem]

/-! ### Lemmas about `checkEntry` -/

theorem checkEntry_inst_fields (now : Int) (e : InstanceDetails) :
    (checkEntry now e).inst.ActivateAt = e.ActivateAt ∧
    (checkEntry now e).inst.LastSent = e.LastSent ∧
    (checkEntry now e).inst.ResolvedAt = e.ResolvedAt ∧
    (checkEntry now e).inst.AlertManagers = e.AlertManagers ∧
    (checkEntry now e).inst.LastError = e.LastError := by
  unfold checkEntry
  split
  · split
    · split <;> simp
    · simp
  · simp

theorem checkEntry_due_imp (now : Int) (e : InstanceDetails)
    (h : (checkEntry now e).due = true) : now > e.LastSent + sendInterval := by
  unfold checkEntry at h
  split at h
  · simpa using h
  · simp at h

theorem checkEntry_due_of (now : Int) (e : InstanceDetails)
    (hg : now > e.ActivateAt ∨ now < e.ResolvedAt + resolveRepeat)
    (hs : now > e.LastSent + sendInterval) : (checkEntry now e).due = true := by
  unfold checkEntry
  rw [if_pos hg]
  simpa using hs

theorem checkEntry_expired_of (now : Int) (e : InstanceDetails)
    (hg : now > e.ActivateAt ∨ now < e.ResolvedAt + resolveRepeat)
    (hx : now > e.ActivateAt + expireTime) : (checkEntry now e).expired = true := by
  unfold checkEntry
  rw [if_pos hg]
  simpa using hx

theorem checkEntry_not_expired_of (now : Int) (e : InstanceDetails)
    (hx : ¬ now > e.ActivateAt + expireTime) : (checkEntry now e).expired = false := by
  unfold checkEntry
  split
  · simpa using hx
  · rfl

theorem checkEntry_inst_of_fresh (now : Int) (e : InstanceDetails)
    (hact : now > e.ActivateAt) (hfresh : e.ActivateAt > e.ActivatedAt)
    (hdue : now > e.LastSent + sendInterval) :
    (checkEntry now e).inst = { e with ActivatedAt := now } := by
  unfold checkEntry
  rw [if_pos (Or.inl hact), if_pos hdue, if_pos ⟨hact, hfresh⟩]

/-! ### Lemmas about the delivery fan-out -/

theorem destUpdate_isSome_mono (env : DeliveryEnv) (now lastSent : Int)
    (lastErr : Option String) (d : String) (h : lastErr.isSome = true) :
    (destUpdate env now lastSent lastErr d).isSome = true := by
  unfold destUpdate
  split
  · exact h
  · dsimp only
    (repeat' split) <;> simp [h]

theorem foldl_destUpdate_isSome (env : DeliveryEnv) (now lastSent : Int) :
    ∀ (l : List String) (acc : Option String), acc.isSome = true →
      (l.foldl (destUpdate env now lastSent) acc).isSome = true
  | [], _, h => h
  | d :: rest, acc, h =>
    foldl_destUpdate_isSome env now lastSent rest _
      (destUpdate_isSome_mono env now lastSent acc d h)

theorem sendAlerts_isSome_of_fail (env : DeliveryEnv) (now lastSent : Int) :
    ∀ (dests : List String) (d : String), d ∈ dests →
      (destUpdate env now lastSent none d).isSome = true →
      (sendAlerts env now dests lastSent).isSome = true
  | [], d, hmem, _ => by simp at hmem
  | x :: rest, d, hmem, hfail => by
    rcases List.mem_cons.mp hmem with h | h
    · subst h
      exact foldl_destUpdate_isSome env now lastSent rest _ hfail
    · show (rest.foldl (destUpdate env now lastSent) (destUpdate env now lastSent none x)).isSome = true
      cases hacc : destUpdate env now lastSent none x with
      | none => exact sendAlerts_isSome_of_fail env now lastSent rest d h hfail
      | some v => exact foldl_destUpdate_isSome env now lastSent rest _ (by simp [hacc])

theorem foldl_destUpdate_parse_none (env : DeliveryEnv) (now lastSent : Int) :
    ∀ (l : List String) (acc : Option String), (∀ d ∈ l, env.parseURL d = none) →
      l.foldl (destUpdate env now lastSent) acc = acc
  | [], _, _ => rfl
  | d :: rest, acc, hall => by
    have h1 : env.parseURL d = none := hall d (by simp)
    have hstep : destUpdate env now lastSent acc d = acc := by
      unfold destUpdate
      rw [h1]
    rw [List.foldl_cons, hstep,
      foldl_destUpdate_parse_none env now lastSent rest acc
        (fun x hx => hall x (by simp [hx]))]

/-! ### Sorting lemma for the key -/

theorem sortStrings_eq_of_perm (l1 l2 : List String) (h : l1.Perm l2) :
    sortStrings l1 = sortStrings l2 :=
  List.eq_of_perm_of_sorted
    (((List.perm_insertionSort strLe l1).trans h).trans
      (List.perm_insertionSort strLe l2).symm)
    (List.sorted_insertionSort strLe l1)
    (List.sorted_insertionSort strLe l2)

/-! ### Claim C1 -/

/-- C1: on ingest of a heartbeat whose key already exists in the
registry, the new record replaces the old one; `ActivatedAt`, `LastSent`
and `LastError` are always copied from the prior record; `ResolvedAt` is
set to the ingest time exactly when the prior record's `LastSent` is
strictly after its `ActivateAt`, and is otherwise copied from the prior
record. -/
theorem c1_updateInstance_replaces_and_carries (now : Int) (R : Registry)
    (key : String) (inst old : InstanceDetails)
    (hf : findInstance R key = some old) :
    findInstance (updateInstance now R key inst) key =
      some { inst with
        ActivatedAt := old.ActivatedAt
        LastSent := old.LastSent
        LastError := old.LastError
        ResolvedAt := if old.LastSent > old.ActivateAt then now else old.ResolvedAt } := by
  unfold updateInstance
  rw [hf]
  by_cases hc : old.LastSent > old.ActivateAt
  · simp [hc, findInstance_setInstance_self]
  · simp [hc, findInstance_setInstance_self]

/-- Concrete run of C1: a prior record that had fired (`LastSent` after
`ActivateAt`) is replaced, the three fields are carried, and `ResolvedAt`
becomes the ingest time. -/
theorem c1_updateInstance_replaces_and_carries_witness :
    findInstance [("k", { sampleInstance with
        LastSent := epoch + 650 * second, ActivatedAt := epoch + 601 * second,
        ActivateAt := epoch + 600 * second, LastError := "old error" })] "k" =
      some { sampleInstance with
        LastSent := epoch + 650 * second, ActivatedAt := epoch + 601 * second,
        ActivateAt := epoch + 600 * second, LastError := "old error" } ∧
    findInstance
        (updateInstance (epoch + 700 * second)
          [("k", { sampleInstance with
            LastSent := epoch + 650 * second, ActivatedAt := epoch + 601 * second,
            ActivateAt := epoch + 600 * second, LastError := "old error" })]
          "k" { sampleInstance with ActivateAt := epoch + 1300 * second }) "k" =
      some { { sampleInstance with ActivateAt := epoch + 1300 * second } with
        ActivatedAt := ({ sampleInstance with
          LastSent := epoch + 650 * second, ActivatedAt := epoch + 601 * second,
          ActivateAt := epoch + 600 * second, LastError := "old error" } : InstanceDetails).ActivatedAt
        LastSent := ({ sampleInstance with
          LastSent := epoch + 650 * second, ActivatedAt := epoch + 601 * second,
          ActivateAt := epoch + 600 * second, LastError := "old error" } : InstanceDetails).LastSent
        LastError := ({ sampleInstance with
          LastSent := epoch + 650 * second, ActivatedAt := epoch + 601 * second,
          ActivateAt := epoch + 600 * second, LastError := "old error" } : InstanceDetails).LastError
        ResolvedAt := if ({ sampleInstance with
            LastSent := epoch + 650 * second, ActivatedAt := epoch + 601 * second,
            ActivateAt := epoch + 600 * second, LastError := "old error" } : InstanceDetails).LastSent >
            ({ sampleInstance with
              LastSent := epoch + 650 * second, ActivatedAt := epoch + 601 * second,
              ActivateAt := epoch + 600 * second, LastError := "old error" } : InstanceDetails).ActivateAt
          then epoch + 700 * second
          else ({ sampleInstance with
            LastSent := epoch + 650 * second, ActivatedAt := epoch + 601 * second,
            ActivateAt := epoch + 600 * second, LastError := "old error" } : InstanceDetails).ResolvedAt } :=
  ⟨by decide,
    c1_updateInstance_replaces_and_carries (epoch + 700 * second) _ "k"
      { sampleInstance with ActivateAt := epoch + 1300 * second } _ (by decide)⟩

/-! ### Claim C2 -/

/-- C2: for every registry entry and every tick at time `now`, if
`now > ActivateAt + expireTime` (default two hours past the activation
deadline) then the entry is absent from the registry after that tick
(both after the locked phase and after the full tick with deliveries);
and in the very tick that removes it, the delivery decision is still
made, so when the entry is due (`now > LastSent + sendInterval`) its key
is enqueued for the final firing notification. -/
theorem c2_expired_removed_after_delivery_decision (env : DeliveryEnv)
    (now : Int) (R : Registry) (key : String) (e : InstanceDetails)
    (hN : (keysOf R).Nodup) (hf : findInstance R key = some e)
    (hexp : now > e.ActivateAt + expireTime) :
    findInstance (checkMonitored now R).1 key = none ∧
    findInstance (tick env now R) key = none ∧
    (now > e.LastSent + sendInterval → key ∈ dueKeys now R) := by
  have hpos : (0 : Int) < expireTime := by decide
  have hact : now > e.ActivateAt := by omega
  have hx : (checkEntry now e).expired = true :=
    checkEntry_expired_of now e (Or.inl hact) hexp
  refine ⟨?_, ?_, ?_⟩
  · rw [findInstance_checkMonitored_fst now R key e hN hf, if_pos hx]
  · rw [findInstance_tick env now R key e hN hf, if_pos hx]
  · intro hs
    exact (mem_dueKeys_iff now R key e hN hf).mpr (checkEntry_due_of now e (Or.inl hact) hs)

/-- Concrete run of C2: a tick 2 h 1 min past the activation deadline
drops the entry and still enqueues its final delivery. -/
theorem c2_expired_removed_after_delivery_decision_witness :
    (keysOf [("k", sampleInstance)]).Nodup ∧
    findInstance [("k", sampleInstance)] "k" = some sampleInstance ∧
    epoch + 7860 * second > sampleInstance.ActivateAt + expireTime ∧
    (findInstance (checkMonitored (epoch + 7860 * second) [("k", sampleInstance)]).1 "k" = none ∧
     findInstance (tick envAllOK (epoch + 7860 * second) [("k", sampleInstance)]) "k" = none ∧
     (epoch + 7860 * second > sampleInstance.LastSent + sendInterval →
       "k" ∈ dueKeys (epoch + 7860 * second) [("k", sampleInstance)])) :=
  ⟨by decide, by decide, by decide,
    c2_expired_removed_after_delivery_decision envAllOK (epoch + 7860 * second)
      [("k", sampleInstance)] "k" sampleInstance (by decide) (by decide) (by decide)⟩

/-! ### Claim C3 -/

/-- C3 counterexample: the tick that begins a firing episode stamps
`ActivatedAt := now`, and `now` is strictly after `ActivateAt` there, so
`ActivatedAt ≤ ActivateAt` is false for the tracked instance right after
the episode begins (the code stores the tick time, not the captured
`ActivateAt`). -/
theorem c3_activatedAt_le_activateAt_counterexample :
    (checkMonitored (epoch + 601 * second) [("k", sampleInstance)]).1 =
      [("k", { sampleInstance with ActivatedAt := epoch + 601 * second })] ∧
    ¬ ({ sampleInstance with ActivatedAt := epoch + 601 * second} : InstanceDetails).ActivatedAt ≤
      ({ sampleInstance with ActivatedAt := epoch + 601 * second} : InstanceDetails).ActivateAt := by
  decide

/-- C3 amended: when a firing episode begins (the entry is active, its
`ActivateAt` has advanced past `ActivatedAt`, it is due for a send and
not expired), the tick stores the tick time itself into `ActivatedAt`;
since activity means `now > ActivateAt`, the entry afterwards satisfies
`ActivateAt < ActivatedAt` — the opposite inequality to the claim. -/
theorem c3_activation_stamps_tick_time (now : Int) (R : Registry) (key : String)
    (e : InstanceDetails) (hN : (keysOf R).Nodup) (hf : findInstance R key = some e)
    (hact : now > e.ActivateAt) (hfresh : e.ActivateAt > e.ActivatedAt)
    (hs : now > e.LastSent + sendInterval)
    (hnx : ¬ now > e.ActivateAt + expireTime) :
    findInstance (checkMonitored now R).1 key = some { e with ActivatedAt := now } ∧
    ({ e with ActivatedAt := now } : InstanceDetails).ActivateAt <
      ({ e with ActivatedAt := now } : InstanceDetails).ActivatedAt := by
  have hx : (checkEntry now e).expired = false := checkEntry_not_expired_of now e hnx
  have hinst := checkEntry_inst_of_fresh now e hact hfresh hs
  constructor
  · rw [findInstance_checkMonitored_fst now R key e hN hf, if_neg (by simp [hx]), hinst]
  · simpa using hact

/-- Concrete run of the amended C3. -/
theorem c3_activation_stamps_tick_time_witness :
    (keysOf [("k", sampleInstance)]).Nodup ∧
    findInstance [("k", sampleInstance)] "k" = some sampleInstance ∧
    epoch + 601 * second > sampleInstance.ActivateAt ∧
    sampleInstance.ActivateAt > sampleInstance.ActivatedAt ∧
    epoch + 601 * second > sampleInstance.LastSent + sendInterval ∧
    ¬ epoch + 601 * second > sampleInstance.ActivateAt + expireTime ∧
    (findInstance (checkMonitored (epoch + 601 * second) [("k", sampleInstance)]).1 "k" =
      some { sampleInstance with ActivatedAt := epoch + 601 * second } ∧
     ({ sampleInstance with ActivatedAt := epoch + 601 * second } : InstanceDetails).ActivateAt <
      ({ sampleInstance with ActivatedAt := epoch + 601 * second } : InstanceDetails).ActivatedAt) :=
  ⟨by decide, by decide, by decide, by decide, by decide, by decide,
    c3_activation_stamps_tick_time (epoch + 601 * second) [("k", sampleInstance)] "k"
      sampleInstance (by decide) (by decide) (by decide) (by decide) (by decide) (by decide)⟩

/-! ### Claim C4 -/

/-- C4 counterexample: a fan-out over two destinations where the first
succeeds and the second fails (a partial success) returns the failure,
and the write-back leaves `LastSent` at its old value instead of
advancing it to the tick time. -/
theorem c4_partial_success_counterexample :
    destUpdate envPartial (epoch + 700 * second) 0 none "http://good" = none ∧
    (destUpdate envPartial (epoch + 700 * second) 0 none "http://bad").isSome = true ∧
    sendAlerts envPartial (epoch + 700 * second) ["http://good", "http://bad"] 0 = some "boom" ∧
    (runAlert envPartial (epoch + 700 * second)
      { sampleInstance with AlertManagers := ["http://good", "http://bad"] }).LastSent =
        sampleInstance.LastSent ∧
    sampleInstance.LastSent ≠ epoch + 700 * second := by
  decide

/-- C4 amended: a partial success is NOT treated as forward progress:
whenever any destination of the fan-out records a failure (even if other
destinations succeed), `sendAlerts` returns that (last) error, the
entry's `LastError` is set to it, and `LastSent` is not advanced.
`LastSent` advances only when no destination records an error. -/
theorem c4_any_failure_blocks_lastSent (env : DeliveryEnv) (now : Int)
    (inst : InstanceDetails) (d : String)
    (hmem : d ∈ inst.AlertManagers)
    (hfail : (destUpdate env now inst.LastSent none d).isSome = true) :
    (sendAlerts env now inst.AlertManagers inst.LastSent).isSome = true ∧
    (runAlert env now inst).LastSent = inst.LastSent ∧
    (∃ msg, sendAlerts env now inst.AlertManagers inst.LastSent = some msg ∧
      (runAlert env now inst).LastError = msg) := by
  have h1 := sendAlerts_isSome_of_fail env now inst.LastSent inst.AlertManagers d hmem hfail
  obtain ⟨msg, hmsg⟩ := Option.isSome_iff_exists.mp h1
  refine ⟨h1, ?_, msg, hmsg, ?_⟩
  · unfold runAlert
    rw [hmsg]
    rfl
  · unfold runAlert
    rw [hmsg]
    rfl

/-- Concrete run of the amended C4, on the same partial-success fan-out
as the counterexample. -/
theorem c4_any_failure_blocks_lastSent_witness :
    "http://bad" ∈ ({ sampleInstance with
      AlertManagers := ["http://good", "http://bad"] } : InstanceDetails).AlertManagers ∧
    (destUpdate envPartial (epoch + 700 * second)
      ({ sampleInstance with AlertManagers := ["http://good", "http://bad"] } : InstanceDetails).LastSent
      none "http://bad").isSome = true ∧
    ((sendAlerts envPartial (epoch + 700 * second)
        ({ sampleInstance with AlertManagers := ["http://good", "http://bad"] } : InstanceDetails).AlertManagers
        ({ sampleInstance with AlertManagers := ["http://good", "http://bad"] } : InstanceDetails).LastSent).isSome = true ∧
     (runAlert envPartial (epoch + 700 * second)
        { sampleInstance with AlertManagers := ["http://good", "http://bad"] }).LastSent =
       ({ sampleInstance with AlertManagers := ["http://good", "http://bad"] } : InstanceDetails).LastSent ∧
     (∃ msg, sendAlerts envPartial (epoch + 700 * second)
        ({ sampleInstance with AlertManagers := ["http://good", "http://bad"] } : InstanceDetails).AlertManagers
        ({ sampleInstance with AlertManagers := ["http://good", "http://bad"] } : InstanceDetails).LastSent = some msg ∧
      (runAlert envPartial (epoch + 700 * second)
        { sampleInstance with AlertManagers := ["http://good", "http://bad"] }).LastError = msg)) :=
  ⟨by decide, by decide,
    c4_any_failure_blocks_lastSent envPartial (epoch + 700 * second)
      { sampleInstance with AlertManagers := ["http://good", "http://bad"] }
      "http://bad" (by decide) (by decide)⟩

/-! ### Claim C5 -/

/-- C5 counterexample: with a failing transport, a tick at `T` and a tick
5 s later (strictly less than one `sendInterval` apart) both enqueue a
delivery for the same entry: a failed fan-out does not advance
`LastSent`, so the entry is retried at the very next tick. -/
theorem c5_two_close_ticks_counterexample :
    "k" ∈ dueKeys (epoch + 601 * second) [("k", sampleInstance)] ∧
    "k" ∈ dueKeys (epoch + 606 * second)
        (tick envAllFail (epoch + 601 * second) [("k", sampleInstance)]) ∧
    (epoch + 606 * second) - (epoch + 601 * second) < sendInterval := by
  decide

/-- C5 amended: two ticks strictly less than `sendInterval` apart issue
at most one delivery per entry, provided the first tick's fan-out for the
entry succeeded (recorded no error, hence advanced `LastSent` to the
first tick's time). -/
theorem c5_at_most_one_delivery_on_success (env : DeliveryEnv) (R : Registry)
    (key : String) (e : InstanceDetails) (T1 T2 : Int)
    (hN : (keysOf R).Nodup) (hf : findInstance R key = some e)
    (_horder : T1 ≤ T2) (hclose : T2 < T1 + sendInterval)
    (hsucc : sendAlerts env T1 e.AlertManagers e.LastSent = none)
    (hdue1 : key ∈ dueKeys T1 R) :
    key ∉ dueKeys T2 (tick env T1 R) := by
  intro hdue2
  have hdueE : (checkEntry T1 e).due = true := (mem_dueKeys_iff T1 R key e hN hf).mp hdue1
  have hmem2 : key ∈ keysOf (tick env T1 R) :=
    (keysOf_checkMonitored_snd_sublist T2 (tick env T1 R)).subset hdue2
  obtain ⟨e2, he2⟩ := findInstance_isSome_of_mem (tick env T1 R) key hmem2
  have hft := findInstance_tick env T1 R key e hN hf
  by_cases hexp : (checkEntry T1 e).expired = true
  · rw [if_pos hexp] at hft
    rw [hft] at he2
    exact Option.noConfusion he2
  · rw [if_neg hexp, if_pos hdueE] at hft
    have he2' : e2 = runAlert env T1 (checkEntry T1 e).inst := by
      rw [hft] at he2
      exact (Option.some.inj he2).symm
    have hLS : e2.LastSent = T1 := by
      rw [he2']
      unfold runAlert
      rw [(checkEntry_inst_fields T1 e).2.2.2.1, (checkEntry_inst_fields T1 e).2.1, hsucc]
      rfl
    have hN2 : (keysOf (tick env T1 R)).Nodup := nodup_keys_tick env T1 R hN
    have hdueE2 : (checkEntry T2 e2).due = true :=
      (mem_dueKeys_iff T2 (tick env T1 R) key e2 hN2 he2).mp hdue2
    have hgt := checkEntry_due_imp T2 e2 hdueE2
    rw [hLS] at hgt
    omega

/-- Concrete run of the amended C5: with the all-success transport, the
tick at `epoch + 601 s` delivers and the tick at `epoch + 606 s` does
not. -/
theorem c5_at_most_one_delivery_on_success_witness :
    (keysOf [("k", sampleInstance)]).Nodup ∧
    findInstance [("k", sampleInstance)] "k" = some sampleInstance ∧
    epoch + 601 * second ≤ epoch + 606 * second ∧
    epoch + 606 * second < epoch + 601 * second + sendInterval ∧
    sendAlerts envAllOK (epoch + 601 * second) sampleInstance.AlertManagers
      sampleInstance.LastSent = none ∧
    "k" ∈ dueKeys (epoch + 601 * second) [("k", sampleInstance)] ∧
    "k" ∉ dueKeys (epoch + 606 * second)
        (tick envAllOK (epoch + 601 * second) [("k", sampleInstance)]) :=
  ⟨by decide, by decide, by decide, by decide, by decide, by decide,
    c5_at_most_one_delivery_on_success envAllOK [("k", sampleInstance)] "k"
      sampleInstance (epoch + 601 * second) (epoch + 606 * second)
      (by decide) (by decide) (by decide) (by decide) (by decide) (by decide)⟩


/-! ### Claim C6 -/

/-- C6 counterexample: `HandleAlert` sorts the already-formatted
`name="value"` strings, not the identifier names, and the two orders
differ when one name is a prefix of another whose next character sorts
below the equals sign: with identifiers `a` and `a0` and labels
`a=x, a0=y`, the code's key is `a0="y" a="x"`, not the claimed
`a="x" a0="y"` that sorting the labels first would give. -/
theorem c6_key_construction_counterexample :
    buildKey overlapNamesAlert = "a0=\"y\" a=\"x\"" ∧
    specDescribedKey overlapNamesAlert = "a=\"x\" a0=\"y\"" ∧
    buildKey overlapNamesAlert ≠ specDescribedKey overlapNamesAlert := by
  decide

/-- C6 amended: the instance key is built from the configured identifier
labels (default `job namespace cluster`) by emitting each as
`name="value"` with the value double-quoted (empty string when absent)
and sorting the emitted strings (not the bare names), joined by single
spaces; and any two heartbeats whose identifier token lists agree up to
permutation and whose identifier label values agree map to the same key,
hence to the same single tracked instance. -/
theorem c6_key_collapses_same_identifiers (a b : Alert)
    (hperm : (identifierList a).Perm (identifierList b))
    (hvals : ∀ id ∈ identifierList a, a.GetLabelDefault id "" = b.GetLabelDefault id "") :
    buildKey a = buildKey b := by
  unfold buildKey
  congr 1
  apply sortStrings_eq_of_perm
  have h1 : (identifierList a).map (fun id => id ++ "=" ++ goQuote (a.GetLabelDefault id "")) =
      (identifierList a).map (fun id => id ++ "=" ++ goQuote (b.GetLabelDefault id "")) :=
    List.map_congr_left (fun id hid => by rw [hvals id hid])
  rw [h1]
  exact hperm.map _

/-- Concrete run of the amended C6: permuted identifier annotations and
equal identifier label values give the same key. -/
theorem c6_key_collapses_same_identifiers_witness :
    (identifierList permAlertA).Perm (identifierList permAlertB) ∧
    (∀ id ∈ identifierList permAlertA,
      permAlertA.GetLabelDefault id "" = permAlertB.GetLabelDefault id "") ∧
    buildKey permAlertA = buildKey permAlertB :=
  ⟨by decide, by decide,
    c6_key_collapses_same_identifiers permAlertA permAlertB (by decide) (by decide)⟩

/-! ### Claim C7 -/

/-- C7: a heartbeat whose `msd_activation` annotation does not parse as a
duration is still accepted and registered (never rejected): `HandleAlert`
produces the proposed registry record, with the activation window fallen
back to the 10 minute default. -/
theorem c7_activation_parse_failure_falls_back (now : Int)
    (parseDuration : String → Option Int) (a : Alert)
    (hst : a.status ≠ "resolved")
    (hfail : parseDuration (a.GetAnnotDefault "msd_activation" "10m") = none) :
    HandleAlert now parseDuration a =
      some (buildKey a,
        { ActivateAt := now + defaultActivation
          AlertManagers := splitAnnot (a.GetAnnotDefault "msd_alertmanagers" (parentExternalURL a))
          AlertName := a.GetAnnotDefault "msd_alertname" "NoAlertConnectivity"
          Receiver := parentReceiver a
          OverrideLabels := splitAnnot (a.GetAnnotDefault "msd_override_labels" "severity=critical")
          LastAlert := a
          ActivatedAt := 0, LastSent := 0, ResolvedAt := 0, LastError := "" }) := by
  unfold HandleAlert
  rw [if_neg hst, hfail]

/-- Concrete run of C7: an unparseable `msd_activation` value still
registers the heartbeat, with a 10 minute window. -/
theorem c7_activation_parse_failure_falls_back_witness :
    ({ sampleAlert with annots := [("msd_activation", "bogus")] } : Alert).status ≠ "resolved" ∧
    (fun _ : String => (none : Option Int))
      (Alert.GetAnnotDefault { sampleAlert with annots := [("msd_activation", "bogus")] }
        "msd_activation" "10m") = none ∧
    HandleAlert epoch (fun _ => none) { sampleAlert with annots := [("msd_activation", "bogus")] } =
      some (buildKey { sampleAlert with annots := [("msd_activation", "bogus")] },
        { ActivateAt := epoch + defaultActivation
          AlertManagers := splitAnnot
            (Alert.GetAnnotDefault { sampleAlert with annots := [("msd_activation", "bogus")] }
              "msd_alertmanagers"
              (parentExternalURL { sampleAlert with annots := [("msd_activation", "bogus")] }))
          AlertName := Alert.GetAnnotDefault
            { sampleAlert with annots := [("msd_activation", "bogus")] }
            "msd_alertname" "NoAlertConnectivity"
          Receiver := parentReceiver { sampleAlert with annots := [("msd_activation", "bogus")] }
          OverrideLabels := splitAnnot
            (Alert.GetAnnotDefault { sampleAlert with annots := [("msd_activation", "bogus")] }
              "msd_override_labels" "severity=critical")
          LastAlert := { sampleAlert with annots := [("msd_activation", "bogus")] }
          ActivatedAt := 0, LastSent := 0, ResolvedAt := 0, LastError := "" }) :=
  ⟨by decide, rfl,
    c7_activation_parse_failure_falls_back epoch (fun _ => none)
      { sampleAlert with annots := [("msd_activation", "bogus")] } (by decide) rfl⟩

/-! ### Claim C8 -/

/-- C8 counterexample: a POST whose handler fails does not increment the
error counter under label `type=handler` (the code increments `handle`),
and the registry gauge is not named
`prommsd_alertcheck_monitored_instances` (the subsystem is
`alertchecker`). -/
theorem c8_metric_names_counterexample :
    MetricEvent.errorOfType "handler" ∉
      (serveHTTP { method := "POST", decoded := some [some "fail"] }).1 ∧
    instanceMetricName ≠ "prommsd_alertcheck_monitored_instances" := by
  decide

/-- C8 amended: a request on which the alert handler fails increments
`prommsd_alerthook_errors_total` with label value `handle` (although the
package's `init` pre-registers the series `handler`, which the error path
never uses — an internal inconsistency of the code), and the registry
cardinality gauge is named `prommsd_alertchecker_monitored_instances`. -/
theorem c8_metric_names_amended (results : List (Option String)) (r : Option String)
    (hmem : r ∈ results) (hsome : r.isSome = true) :
    serveHTTP { method := "POST", decoded := some results } =
      ([MetricEvent.received, MetricEvent.errorOfType "handle"], 500) ∧
    instanceMetricName = "prommsd_alertchecker_monitored_instances" ∧
    errorsMetricName = "prommsd_alerthook_errors_total" ∧
    receivedMetricName = "prommsd_alerthook_received_total" ∧
    initialErrorTypes = ["wrong_method", "decode", "handler"] := by
  have hany : results.any Option.isSome = true := List.any_eq_true.mpr ⟨r, hmem, hsome⟩
  refine ⟨?_, by decide, by decide, by decide, rfl⟩
  unfold serveHTTP
  rw [if_neg (show ¬(("POST" : String) = "HEAD" ∨ ("POST" : String) = "OPTIONS") by decide),
      if_neg (show ¬(("POST" : String) ≠ "POST") by decide)]
  simp [hany]

/-- Concrete run of the amended C8. -/
theorem c8_metric_names_amended_witness :
    some "fail" ∈ [some "fail", (none : Option String)] ∧
    (some "fail" : Option String).isSome = true ∧
    (serveHTTP { method := "POST", decoded := some [some "fail", none] } =
      ([MetricEvent.received, MetricEvent.errorOfType "handle"], 500) ∧
     instanceMetricName = "prommsd_alertchecker_monitored_instances" ∧
     errorsMetricName = "prommsd_alerthook_errors_total" ∧
     receivedMetricName = "prommsd_alerthook_received_total" ∧
     initialErrorTypes = ["wrong_method", "decode", "handler"]) :=
  ⟨by decide, by decide,
    c8_metric_names_amended [some "fail", none] (some "fail") (by decide) (by decide)⟩

/-! ### Claim C9 -/

/-- C9 counterexample: the default of `--listen` is not `:9799`. -/
theorem c9_default_listen_counterexample : defaultListen ≠ ":9799" := by decide

/-- C9 amended: the CLI accepts `--listen` with default address `:9111`;
when `--external-url` is absent (empty), the external URL is derived from
the listen address (`http://localhost` prepended to a `:port` address,
`http://` prepended otherwise); `--version` makes `main` print build info
and exit before serving. -/
theorem c9_cli_surface_amended (l l2 e : String)
    (hl : l.front = ':') (hl2 : l2.front ≠ ':') (he : e ≠ "") :
    defaultListen = ":9111" ∧
    (∀ la ea : String, mainRun la ea true = MainAction.versionExit) ∧
    mainRun l "" false = MainAction.serve l ("http://localhost" ++ l) ∧
    mainRun l2 "" false = MainAction.serve l2 ("http://" ++ l2) ∧
    mainRun l e false = MainAction.serve l e := by
  refine ⟨rfl, fun la ea => rfl, ?_, ?_, ?_⟩
  · unfold mainRun computeExternalURL
    rw [if_neg (by simp), if_pos (by decide), if_pos hl]
  · unfold mainRun computeExternalURL
    rw [if_neg (by simp), if_pos (by decide), if_neg hl2]
  · unfold mainRun computeExternalURL
    rw [if_neg (by simp), if_neg (fun h => he (by
      have h2 : e.data.length = 0 := h
      have h3 : e.data = [] := List.length_eq_zero.mp h2
      cases e
      simp at h3
      simp [h3]))]

/-- Concrete run of the amended C9. -/
theorem c9_cli_surface_amended_witness :
    (":9111" : String).front = ':' ∧
    ("0.0.0.0:80" : String).front ≠ ':' ∧
    ("http://example" : String) ≠ "" ∧
    (defaultListen = ":9111" ∧
     (∀ la ea : String, mainRun la ea true = MainAction.versionExit) ∧
     mainRun ":9111" "" false = MainAction.serve ":9111" ("http://localhost" ++ ":9111") ∧
     mainRun "0.0.0.0:80" "" false = MainAction.serve "0.0.0.0:80" ("http://" ++ "0.0.0.0:80") ∧
     mainRun ":9111" "http://example" false = MainAction.serve ":9111" "http://example") :=
  ⟨by decide, by decide, by decide,
    c9_cli_surface_amended ":9111" "0.0.0.0:80" "http://example"
      (by decide) (by decide) (by decide)⟩

/-! ### Claim C10 -/

/-- C10: when every destination URL of a fan-out fails to parse, every
destination is skipped with only a log line, `sendAlerts` returns no
error, and the write-back therefore advances the entry's `LastSent` to
the tick time and leaves `LastError` untouched, even though no delivery
was attempted. -/
theorem c10_all_unparseable_is_silent_success (env : DeliveryEnv) (now : Int)
    (inst : InstanceDetails)
    (hall : ∀ d ∈ inst.AlertManagers, env.parseURL d = none) :
    sendAlerts env now inst.AlertManagers inst.LastSent = none ∧
    (runAlert env now inst).LastSent = now ∧
    (runAlert env now inst).LastError = inst.LastError := by
  have h0 : sendAlerts env now inst.AlertManagers inst.LastSent = none :=
    foldl_destUpdate_parse_none env now inst.LastSent inst.AlertManagers none hall
  refine ⟨h0, ?_, ?_⟩
  · unfold runAlert
    rw [h0]
    rfl
  · unfold runAlert
    rw [h0]
    rfl

/-- Concrete run of C10: two unparseable destinations, no error recorded,
`LastSent` advanced. -/
theorem c10_all_unparseable_is_silent_success_witness :
    (∀ d ∈ ({ sampleInstance with
        AlertManagers := ["%%bad", "also bad"] } : InstanceDetails).AlertManagers,
      envNoParse.parseURL d = none) ∧
    (sendAlerts envNoParse (epoch + 601 * second)
        ({ sampleInstance with AlertManagers := ["%%bad", "also bad"] } : InstanceDetails).AlertManagers
        ({ sampleInstance with AlertManagers := ["%%bad", "also bad"] } : InstanceDetails).LastSent = none ∧
     (runAlert envNoParse (epoch + 601 * second)
        { sampleInstance with AlertManagers := ["%%bad", "also bad"] }).LastSent =
       epoch + 601 * second ∧
     (runAlert envNoParse (epoch + 601 * second)
        { sampleInstance with AlertManagers := ["%%bad", "also bad"] }).LastError =
       ({ sampleInstance with AlertManagers := ["%%bad", "also bad"] } : InstanceDetails).LastError) :=
  ⟨fun _ _ => rfl,
    c10_all_unparseable_is_silent_success envNoParse (epoch + 601 * second)
      { sampleInstance with AlertManagers := ["%%bad", "also bad"] } (fun _ _ => rfl)⟩

end Prommsd
